import Mathlib

/-!
Verification of the osrs-dps-calc combat engine.

This file is a shallow embedding, in Lean 4, of the combat resolution engine
of the repository: the integer numeric types (`generics.rs`), the combat
style catalog (`equipment/combat_styles.rs`), the equipment attribute
callback chain (`equipment/weapon_callbacks.rs`) and the player/enemy
formulas (`unit.rs`).  Rust `i32` arithmetic is embedded as `Int` with
truncated division (`Int.tdiv`, matching Rust's `/` on `i32`); code that can
panic (`unreachable!`, `unimplemented!`, the panicking `invisible_boost`
variant) is embedded as `Option`-valued, with `none` standing for the panic;
fallible code returning `Result` is embedded as `Except String`.  The final
floating-point hit-rate/DPS blend is embedded exactly over `ℚ`.
-/

namespace OsrsDpsCalc

/-! ## Numeric types (src/generics.rs)

`Scalar`, `Ticks` and `Tiles` all wrap `i32`; we embed them as `Int`.
`SECONDS_PER_TICK` is the f64 constant 0.6, embedded as the rational 3/5. -/

abbrev Scalar := Int
abbrev Ticks := Int
abbrev Tiles := Int

/-- The f64 constant `SECONDS_PER_TICK = 0.6` from src/generics.rs, as an
exact rational. -/
def SECONDS_PER_TICK : ℚ := 3 / 5

/-- `Fraction { dividend, divisor }` from src/generics.rs. -/
structure Fraction where
  dividend : Int
  divisor : Int
deriving Repr, DecidableEq

/-- `impl Mul<Fraction> for Scalar`: `(self.0 * rhs.dividend) / rhs.divisor`
with Rust `i32` division, i.e. truncation toward zero. -/
def scalar_mul_fraction (s : Scalar) (f : Fraction) : Scalar :=
  Int.tdiv (s * f.dividend) f.divisor

/-- A `Percentage(i32)` is embedded as its wrapped integer. -/
abbrev Percentage := Int

/-- `impl Mul<Percentage> for Scalar`: `(self.0 * (100 + rhs.0)) / 100`
with Rust `i32` division, i.e. truncation toward zero. -/
def scalar_mul_percentage (s : Scalar) (p : Percentage) : Scalar :=
  Int.tdiv (s * (100 + p)) 100

/-! ## Combat style catalog (src/equipment/combat_styles.rs) -/

/-- `enum StyleType`. -/
inductive StyleType where
  | Slash
  | Crush
  | Stab
  | Ranged
  | Magic
  | None
deriving Repr, DecidableEq

/-- `StyleType::is_melee`. -/
def StyleType.is_melee : StyleType → Bool
  | .Crush | .Slash | .Stab => true
  | _ => false

/-- `StyleType::is_ranged`. -/
def StyleType.is_ranged : StyleType → Bool
  | .Ranged => true
  | _ => false

/-- `StyleType.is_magic`. -/
def StyleType.is_magic : StyleType → Bool
  | .Magic => true
  | _ => false

/-- `enum WeaponStyle`. -/
inductive WeaponStyle where
  | Accurate
  | Aggressive
  | Defensive
  | Controlled
  | Rapid
  | Longrange
  | ShortFuse
  | MediumFuse
  | LongFuse
  | Autocast
  | DefensiveAutocast
  | None
deriving Repr, DecidableEq

/-- `struct CombatOptionModifier`; all fields default to zero, matching
`#[derive(Default)]`. -/
structure CombatOptionModifier where
  attack : Scalar := 0
  strength : Scalar := 0
  defence : Scalar := 0
  ranged : Scalar := 0
  magic : Scalar := 0
  attack_range : Tiles := 0
  attack_speed : Ticks := 0
deriving Repr, DecidableEq

/-- `struct CombatOption`; the field defaults mirror
`impl Default for CombatOption` (name "Punch", Crush, Accurate). -/
structure CombatOption where
  name : String := "Punch"
  style_type : StyleType := .Crush
  weapon_style : WeaponStyle := .Accurate
deriving Repr, DecidableEq

/-- `CombatOption::invisible_boost` from src/equipment/combat_styles.rs
(the current, `Result`-returning revision).  Match arms are translated in
source order; the final catch-all arm returns the recoverable error
`anyhow!("Not interested")`. -/
def CombatOption.invisible_boost (c : CombatOption) : Except String CombatOptionModifier :=
  match c.style_type, c.weapon_style with
  | .Slash, .Accurate | .Crush, .Accurate | .Stab, .Accurate =>
      Except.ok { attack := 3 }
  | .Slash, .Aggressive | .Crush, .Aggressive | .Stab, .Aggressive =>
      Except.ok { strength := 3 }
  | _, .Defensive => Except.ok { defence := 3 }
  | _, .Controlled => Except.ok { attack := 1, strength := 1, defence := 1 }
  | .Ranged, .Accurate | .Ranged, .ShortFuse => Except.ok { ranged := 3 }
  | .Ranged, .Rapid | .Ranged, .MediumFuse => Except.ok { attack_speed := -1 }
  | .Ranged, .Longrange => Except.ok { defence := 3, attack_range := 2 }
  | _, .LongFuse => Except.ok { attack_range := 1 }
  | .Magic, .Accurate => Except.ok { magic := 3 }
  | .Magic, .Longrange => Except.ok { magic := 1, defence := 3, attack_range := 2 }
  | .Magic, .Autocast | .Magic, .DefensiveAutocast => Except.ok {}
  | .None, .None => Except.ok {}
  | _, _ => Except.error ("Not interested")

/-- `enum WeaponType` (27 variants). -/
inductive WeaponType where
  | TwoHandedSword
  | Axe
  | Banner
  | Blunt
  | Bludgeon
  | Bulwark
  | Claw
  | Partisan
  | Pickaxe
  | Polearm
  | Polestaff
  | Scythe
  | SlashSword
  | Spear
  | Spiked
  | StabSword
  | Unarmed
  | Whip
  | Bow
  | Chinchompa
  | Crossbow
  | Gun
  | Thrown
  | BladedStaff
  | PoweredStaff
  | PoweredWand
  | Staff
  | Salamander
deriving Repr, DecidableEq

/-- Shorthand for `CombatOption::new` used by the catalog tables. -/
def mkCombatOption (name : String) (style_type : StyleType) (weapon_style : WeaponStyle) :
    CombatOption :=
  { name := name, style_type := style_type, weapon_style := weapon_style }

/-- `WeaponType::combat_boost` from src/equipment/combat_styles.rs: the
literal per-weapon-type combat option tables. -/
def WeaponType.combat_boost : WeaponType → List CombatOption
  | .TwoHandedSword =>
      [mkCombatOption ("Chop") .Slash .Accurate,
       mkCombatOption ("Slash") .Slash .Aggressive,
       mkCombatOption ("Smash") .Crush .Aggressive,
       mkCombatOption ("Block") .Slash .Defensive]
  | .Axe =>
      [mkCombatOption ("Chop") .Slash .Accurate,
       mkCombatOption ("Hack") .Slash .Aggressive,
       mkCombatOption ("Smash") .Crush .Aggressive,
       mkCombatOption ("Block") .Slash .Defensive]
  | .Banner =>
      [mkCombatOption ("Lunge") .Stab .Accurate,
       mkCombatOption ("Swipe") .Slash .Aggressive,
       mkCombatOption ("Pound") .Crush .Controlled,
       mkCombatOption ("Block") .Stab .Defensive]
  | .Blunt =>
      [mkCombatOption ("Pound") .Crush .Accurate,
       mkCombatOption ("Pummel") .Crush .Aggressive,
       mkCombatOption ("Block") .Crush .Defensive]
  | .Bludgeon =>
      [mkCombatOption ("Pound") .Crush .Aggressive,
       mkCombatOption ("Pummel") .Crush .Aggressive,
       mkCombatOption ("Block") .Crush .Aggressive]
  | .Bulwark =>
      [mkCombatOption ("Pummel") .Crush .Accurate,
       mkCombatOption ("Block") .None .None]
  | .Claw | .SlashSword =>
      [mkCombatOption ("Chop") .Slash .Accurate,
       mkCombatOption ("Slash") .Slash .Aggressive,
       mkCombatOption ("Lunge") .Stab .Controlled,
       mkCombatOption ("Block") .Slash .Defensive]
  | .Partisan =>
      [mkCombatOption ("Stab") .Stab .Accurate,
       mkCombatOption ("Lunge") .Stab .Aggressive,
       mkCombatOption ("Pound") .Crush .Aggressive,
       mkCombatOption ("Block") .Stab .Defensive]
  | .Pickaxe =>
      [mkCombatOption ("Spike") .Stab .Accurate,
       mkCombatOption ("Impale") .Stab .Aggressive,
       mkCombatOption ("Smash") .Crush .Aggressive,
       mkCombatOption ("Block") .Stab .Defensive]
  | .Polearm =>
      [mkCombatOption ("Jab") .Stab .Controlled,
       mkCombatOption ("Swipe") .Slash .Aggressive,
       mkCombatOption ("Fend") .Stab .Defensive]
  | .Polestaff =>
      [mkCombatOption ("Bash") .Crush .Accurate,
       mkCombatOption ("Pound") .Crush .Aggressive,
       mkCombatOption ("Block") .Crush .Defensive]
  | .Scythe =>
      [mkCombatOption ("Reap") .Slash .Accurate,
       mkCombatOption ("Chop") .Slash .Aggressive,
       mkCombatOption ("Jab") .Crush .Aggressive,
       mkCombatOption ("Block") .Slash .Defensive]
  | .Spear =>
      [mkCombatOption ("Lunge") .Stab .Controlled,
       mkCombatOption ("Swipe") .Slash .Controlled,
       mkCombatOption ("Pound") .Crush .Controlled,
       mkCombatOption ("Block") .Stab .Defensive]
  | .Spiked =>
      [mkCombatOption ("Pound") .Crush .Accurate,
       mkCombatOption ("Pummel") .Crush .Aggressive,
       mkCombatOption ("Spike") .Stab .Controlled,
       mkCombatOption ("Block") .Crush .Defensive]
  | .StabSword =>
      [mkCombatOption ("Stab") .Stab .Accurate,
       mkCombatOption ("Lunge") .Stab .Aggressive,
       mkCombatOption ("Slash") .Slash .Aggressive,
       mkCombatOption ("Block") .Stab .Defensive]
  | .Unarmed =>
      [mkCombatOption ("Punch") .Crush .Accurate,
       mkCombatOption ("Kick") .Crush .Aggressive,
       mkCombatOption ("Block") .Crush .Defensive]
  | .Whip =>
      [mkCombatOption ("Flick") .Slash .Accurate,
       mkCombatOption ("Lash") .Slash .Controlled,
       mkCombatOption ("Deflect") .Slash .Defensive]
  | .Bow | .Crossbow | .Thrown =>
      [mkCombatOption ("Accurate") .Ranged .Accurate,
       mkCombatOption ("Rapid") .Ranged .Rapid,
       mkCombatOption ("Longrange") .Ranged .Longrange]
  | .Chinchompa =>
      [mkCombatOption ("Short fuse") .Ranged .ShortFuse,
       mkCombatOption ("Medium fuse") .Ranged .MediumFuse,
       mkCombatOption ("Long fuse") .Ranged .LongFuse]
  | .Gun =>
      [mkCombatOption ("Aim and Fire") .None .None,
       mkCombatOption ("Kick") .Crush .Aggressive]
  | .BladedStaff =>
      [mkCombatOption ("Jab") .Stab .Accurate,
       mkCombatOption ("Swipe") .Slash .Aggressive,
       mkCombatOption ("Fend") .Crush .Defensive,
       mkCombatOption ("Spell") .Magic .Autocast,
       mkCombatOption ("Spell") .Magic .DefensiveAutocast]
  | .PoweredStaff | .PoweredWand =>
      [mkCombatOption ("Accurate") .Magic .Accurate,
       mkCombatOption ("Accurate") .Magic .Accurate,
       mkCombatOption ("Longrange") .Magic .Longrange]
  | .Staff =>
      [mkCombatOption ("Bash") .Crush .Accurate,
       mkCombatOption ("Pound") .Crush .Aggressive,
       mkCombatOption ("Focus") .Crush .Defensive,
       mkCombatOption ("Spell") .Magic .Autocast,
       mkCombatOption ("Spell") .Magic .DefensiveAutocast]
  | .Salamander =>
      [mkCombatOption ("Scorch") .Slash .Aggressive,
       mkCombatOption ("Flare") .Ranged .Accurate,
       mkCombatOption ("Blaze") .Magic .Defensive]

/-! ## Equipment data model (src/equipment/weapon_callbacks.rs, src/equipment/mod.rs, src/unit.rs) -/

/-- `enum Attribute` from src/equipment/weapon_callbacks.rs (the revision
matching src/unit.rs, including the Blisterwood, Harmonised and Wilderness
variants). -/
inductive Attribute where
  | CrystalArmour
  | CrystalBow
  | SalveAmulet
  | SalveAmuletEnchanted
  | SalveAmuletImbued
  | SalveAmuletEnchantedImbued
  | BlackMask
  | BlackMaskImbued
  | VoidArmour
  | VoidHelmMelee
  | VoidHelmRanged
  | VoidHelmMagic
  | RevenantWeapon
  | DragonHunterLance
  | Arclight
  | KerisPartisan
  | BlisterwoodFlail
  | BlisterwoodSickle
  | TzhaarMeleeWeapon
  | InquisitorArmour
  | BarroniteMace
  | Silverlight
  | IvandisFlail
  | LeadBladedBattleaxe
  | ColossalBlade
  | TwistedBow
  | DragonHunterCrossbow
  | SmokeStaff
  | HarmonisedNightmareStaff
  | WildernessWeaponMelee
  | WildernessWeaponRanged
  | WildernessWeaponMagic
deriving Repr, DecidableEq

/-- `struct StatBonuses { stab, slash, crush, ranged, magic }`; field
defaults mirror `impl Default` (all zero). -/
structure StatBonuses where
  stab : Scalar := 0
  slash : Scalar := 0
  crush : Scalar := 0
  ranged : Scalar := 0
  magic : Scalar := 0
deriving Repr, DecidableEq

/-- `impl Add for StatBonuses`: componentwise addition. -/
def StatBonuses.add (a b : StatBonuses) : StatBonuses :=
  { stab := a.stab + b.stab, slash := a.slash + b.slash, crush := a.crush + b.crush,
    ranged := a.ranged + b.ranged, magic := a.magic + b.magic }

/-- `struct DamageBonus { strength, ranged, magic }`; `magic` is a
`Percentage`. -/
structure DamageBonus where
  strength : Scalar := 0
  ranged : Scalar := 0
  magic : Percentage := 0
deriving Repr, DecidableEq

/-- `impl Add for DamageBonus`: componentwise addition. -/
def DamageBonus.add (a b : DamageBonus) : DamageBonus :=
  { strength := a.strength + b.strength, ranged := a.ranged + b.ranged,
    magic := a.magic + b.magic }

/-- `struct Stats { attack, defence, damage, prayer_bonus }`. -/
structure Stats where
  attack : StatBonuses := {}
  defence : StatBonuses := {}
  damage : DamageBonus := {}
  prayer_bonus : Scalar := 0
deriving Repr, DecidableEq

/-- `impl Add for Stats`: componentwise addition. -/
def Stats.add (a b : Stats) : Stats :=
  { attack := a.attack.add b.attack, defence := a.defence.add b.defence,
    damage := a.damage.add b.damage, prayer_bonus := a.prayer_bonus + b.prayer_bonus }

/-- `struct Equipment { name, stats, attributes }` — the per-item value
every slot struct wraps (exposed through `ContainsEquipment::inner`). -/
structure Equipment where
  name : String := "Empty"
  stats : Stats := {}
  attributes : List Attribute := []
deriving Repr, DecidableEq

/-- The canonical "Empty" equipment value produced by
`unwrap_or_default()` on an empty slot. -/
def Equipment.empty : Equipment := {}

/-- `enum PoweredStaff` — the powered-staff kinds matched by
`Equipped::powered_staff_max_hit` in src/unit.rs. -/
inductive PoweredStaff where
  | StarterStaff
  | TridentOfTheSeas
  | ThammaronsSceptre
  | AccursedSceptre
  | TridentOfTheSwamp
  | SanguinestiStaff
  | Dawnbringer
  | TumekensShadow
  | CrystalStaffBasic
  | CrystalStaffAttuned
  | CrystallStaffPerfected
  | SwampLizard
  | OrangeSalamander
  | RedSalamander
  | BlackSalamander
deriving Repr, DecidableEq

/-- `struct WeaponStats { weapon_type, attack_speed, range }`; field
defaults mirror `impl Default` (Unarmed, 4 ticks, 1 tile). -/
structure WeaponStats where
  weapon_type : WeaponType := .Unarmed
  attack_speed : Ticks := 4
  range : Tiles := 1
deriving Repr, DecidableEq

/-- A wieldable weapon: `Equipment` data plus `WeaponStats` and the
optional powered-staff kind carried by weapon slots
(`WeaponOneHanded` / `WeaponTwoHanded` share this shape). -/
structure Weapon where
  name : String := "Empty"
  stats : Stats := {}
  attributes : List Attribute := []
  weapon_stats : WeaponStats := {}
  powered_staff_type : Option PoweredStaff := none
deriving Repr, DecidableEq

/-- The default "Empty" weapon produced by `unwrap_or_default()`. -/
def Weapon.empty : Weapon := {}

/-- `enum Wielded` from src/unit.rs: one-handed weapon plus shield, or a
two-handed weapon; empty slots are `Option`s resolved by
`unwrap_or_default()`. -/
inductive Wielded where
  | one_handed (weapon : Option Weapon) (shield : Option Equipment)
  | two_handed (weapon : Option Weapon)
deriving Repr, DecidableEq

/-- The wielded weapon after `unwrap_or_default()`. -/
def Wielded.weapon_or_default : Wielded → Weapon
  | .one_handed w _ => w.getD Weapon.empty
  | .two_handed w => w.getD Weapon.empty

/-- `Wielded::combat_boost`: the combat option list of the wielded
weapon's weapon type. -/
def Wielded.combat_boost (w : Wielded) : List CombatOption :=
  w.weapon_or_default.weapon_stats.weapon_type.combat_boost

/-- `Wielded::stats`: weapon + shield stats (one-handed) or weapon stats
alone (two-handed). -/
def Wielded.stats : Wielded → Stats
  | .one_handed w s => ((w.getD Weapon.empty).stats).add ((s.getD Equipment.empty).stats)
  | .two_handed w => (w.getD Weapon.empty).stats

/-- `Wielded::weapon_stats`. -/
def Wielded.weapon_stats (w : Wielded) : WeaponStats :=
  w.weapon_or_default.weapon_stats

/-- `Wielded::attributes`: the attribute set of whichever weapon is held
(shields never contribute attributes). -/
def Wielded.attributes (w : Wielded) : List Attribute :=
  w.weapon_or_default.attributes

/-- `Wielded::attack_speed`: weapon base attack speed plus the combat
style's invisible attack-speed delta.  The source calls the panicking
`invisible_boost`; the panic is embedded as `none`. -/
def Wielded.attack_speed (w : Wielded) (combat_style : CombatOption) : Option Ticks :=
  combat_style.invisible_boost.toOption.map
    (fun boost => w.weapon_stats.attack_speed + boost.attack_speed)

/-! ## Prayers, spells, levels, enemy (src/prayers.rs, src/spells.rs, src/unit.rs) -/

/-- `prayers::Stats`: the per-prayer percentage bonuses; defaults are all
zero percent. -/
structure PrayerStats where
  defence : Percentage := 0
  melee_accuracy : Percentage := 0
  melee_damage : Percentage := 0
  ranged_accuracy : Percentage := 0
  ranged_damage : Percentage := 0
  magic_accuracy : Percentage := 0
  magic_defence : Percentage := 0
deriving Repr, DecidableEq

/-- `impl Add for prayers::Stats`: componentwise addition. -/
def PrayerStats.add (a b : PrayerStats) : PrayerStats :=
  { defence := a.defence + b.defence,
    melee_accuracy := a.melee_accuracy + b.melee_accuracy,
    melee_damage := a.melee_damage + b.melee_damage,
    ranged_accuracy := a.ranged_accuracy + b.ranged_accuracy,
    ranged_damage := a.ranged_damage + b.ranged_damage,
    magic_accuracy := a.magic_accuracy + b.magic_accuracy,
    magic_defence := a.magic_defence + b.magic_defence }

/-- `struct Prayer { name, stats }`. -/
structure Prayer where
  name : String
  stats : PrayerStats
deriving Repr, DecidableEq

/-- `spells::Spellbook`. -/
inductive Spellbook where
  | Standard
  | Ancient
  | Lunar
  | Arceuus
deriving Repr, DecidableEq

/-- `spells::Attribute`. -/
inductive SpellAttribute where
  | Bolt
  | Barrage
deriving Repr, DecidableEq

/-- `struct Spell { name, max_hit, spellbook, attributes }`. -/
structure Spell where
  name : String
  max_hit : Scalar
  spellbook : Spellbook := .Standard
  attributes : List SpellAttribute := []
deriving Repr, DecidableEq

/-- `struct Levels`; defaults mirror `impl Default` (all 99). -/
structure Levels where
  hitpoints : Scalar := 99
  attack : Scalar := 99
  strength : Scalar := 99
  defence : Scalar := 99
  ranged : Scalar := 99
  magic : Scalar := 99
  prayer : Scalar := 99
deriving Repr, DecidableEq

/-- `enum EnemyAttribute`. -/
inductive EnemyAttribute where
  | Demon
  | Raid
  | Dragon
  | Golem
  | Vampyre
  | Leafy
  | Undead
deriving Repr, DecidableEq

/-- `struct Enemy { name, levels, stats, attributes, size }`. -/
structure Enemy where
  name : String
  levels : Levels := {}
  stats : Stats := {}
  attributes : List EnemyAttribute := []
  size : Tiles := 1
deriving Repr, DecidableEq

/-- `Enemy::has_attribute`. -/
def Enemy.has_attribute (e : Enemy) (a : EnemyAttribute) : Bool :=
  e.attributes.contains a

/-- `Enemy::max_defence_roll` from src/unit.rs.  The
`StyleType::None => unimplemented!()` arm is embedded as `none`. -/
def Enemy.max_defence_roll (e : Enemy) (style_type : StyleType) : Option Scalar :=
  ((match style_type with
    | .Stab => some e.stats.defence.stab
    | .Slash => some e.stats.defence.slash
    | .Crush => some e.stats.defence.crush
    | .Ranged => some e.stats.defence.ranged
    | .Magic => some e.stats.defence.magic
    | .None => none : Option Scalar)).map (fun style_defence =>
      let effective_defence_level :=
        (match style_type with
          | .Magic => e.levels.magic
          | _ => e.levels.defence) + 9
      effective_defence_level * (style_defence + 64))

/-! ## Player aggregate (src/unit.rs) -/

/-- `struct Extra`; defaults mirror `impl Default` (on a slayer task, 99
mining, in the wilderness, no charge). -/
structure Extra where
  on_slayer_task : Bool := true
  mining_level : Scalar := 99
  in_wilderness : Bool := true
  charge_active : Bool := false
deriving Repr, DecidableEq

/-- `struct Equipped`: the ten-slot loadout; armour slots are
`Option Equipment`, the wielded weapon is a `Wielded`. -/
structure Equipped where
  head : Option Equipment := none
  cape : Option Equipment := none
  neck : Option Equipment := none
  ammunition : Option Equipment := none
  wielded : Wielded := .one_handed none none
  body : Option Equipment := none
  legs : Option Equipment := none
  hands : Option Equipment := none
  feet : Option Equipment := none
  ring : Option Equipment := none
deriving Repr, DecidableEq

/-- `EquippedIter::next` from src/unit.rs, as the list of slot equipment
values it yields, in iteration order: head, cape, neck, ammunition, body,
legs, hands, feet, ring (the wielded weapon is NOT part of the iterator). -/
def Equipped.iter (eq : Equipped) : List Equipment :=
  [eq.head.getD Equipment.empty,
   eq.cape.getD Equipment.empty,
   eq.neck.getD Equipment.empty,
   eq.ammunition.getD Equipment.empty,
   eq.body.getD Equipment.empty,
   eq.legs.getD Equipment.empty,
   eq.hands.getD Equipment.empty,
   eq.feet.getD Equipment.empty,
   eq.ring.getD Equipment.empty]

/-- `Equipped::total_stats`: sum of every iterated slot's stats plus the
wielded stats. -/
def Equipped.total_stats (eq : Equipped) : Stats :=
  ((eq.iter.map Equipment.stats).foldl Stats.add {}).add eq.wielded.stats

/-- `struct Player` from src/unit.rs. -/
structure Player where
  levels : Levels := {}
  equipped : Equipped := {}
  active_prayers : List Prayer := []
  combat_option : CombatOption := {}
  spell : Option Spell := none
  extra : Extra := {}
deriving Repr, DecidableEq

/-- `Player::prayer_stats`: fold the active prayers' stats from the
default (zero) stats. -/
def Player.prayer_stats (p : Player) : PrayerStats :=
  p.active_prayers.foldl (fun acc pr => acc.add pr.stats) {}

/-! ## Attribute callbacks (src/equipment/weapon_callbacks.rs, mod callbacks) -/

/-- The head-slot attribute list read by the black mask callbacks:
`player.equipped().head.unwrap_or_default().inner.attributes`. -/
def head_attributes (p : Player) : List Attribute :=
  (p.equipped.head.getD Equipment.empty).attributes

/-- The four salve-variant absence checks of `black_mask`, grouped. -/
def head_salve_free (p : Player) : Bool :=
  !((head_attributes p).contains Attribute.SalveAmulet)
    && !((head_attributes p).contains Attribute.SalveAmuletEnchanted)
    && !((head_attributes p).contains Attribute.SalveAmuletImbued)
    && !((head_attributes p).contains Attribute.SalveAmuletEnchantedImbued)

/-- The two imbued-salve absence checks of `black_mask_imbued`, grouped. -/
def head_salve_imbued_free (p : Player) : Bool :=
  !((head_attributes p).contains Attribute.SalveAmuletImbued)
    && !((head_attributes p).contains Attribute.SalveAmuletEnchantedImbued)

/-- `callbacks::identity`. -/
def identity_callback (value : Scalar) (_player : Player) (_enemy : Enemy) : Scalar :=
  value

/-- `callbacks::dragon_hunter_crossbow_accuracy`. -/
def dragon_hunter_crossbow_accuracy (value : Scalar) (player : Player) (enemy : Enemy) : Scalar :=
  if enemy.has_attribute .Dragon && player.combat_option.style_type.is_melee then
    scalar_mul_fraction value ⟨13, 10⟩
  else value

/-- `callbacks::dragon_hunter_crossbow_max_hit`. -/
def dragon_hunter_crossbow_max_hit (value : Scalar) (player : Player) (enemy : Enemy) : Scalar :=
  if enemy.has_attribute .Dragon && player.combat_option.style_type.is_ranged then
    scalar_mul_fraction value ⟨5, 4⟩
  else value

/-- `callbacks::salve_amulet`. -/
def salve_amulet (value : Scalar) (player : Player) (enemy : Enemy) : Scalar :=
  if enemy.has_attribute .Undead && player.combat_option.style_type.is_melee then
    scalar_mul_fraction value ⟨7, 6⟩
  else value

/-- `callbacks::salve_amulet_enchanted`. -/
def salve_amulet_enchanted (value : Scalar) (player : Player) (enemy : Enemy) : Scalar :=
  if enemy.has_attribute .Undead && player.combat_option.style_type.is_melee then
    scalar_mul_fraction value ⟨6, 5⟩
  else value

/-- `callbacks::salve_amulet_imbued`. -/
def salve_amulet_imbued (value : Scalar) (_player : Player) (enemy : Enemy) : Scalar :=
  if enemy.has_attribute .Undead then scalar_mul_fraction value ⟨7, 6⟩ else value

/-- `callbacks::salve_amulet_enchanted_imbued`. -/
def salve_amulet_enchanted_imbued (value : Scalar) (_player : Player) (enemy : Enemy) : Scalar :=
  if enemy.has_attribute .Undead then scalar_mul_fraction value ⟨6, 5⟩ else value

/-- `callbacks::black_mask`: ×7/6 while on a slayer task with a melee
style and no salve variant among the HEAD slot's attributes. -/
def black_mask (value : Scalar) (player : Player) (_enemy : Enemy) : Scalar :=
  if player.extra.on_slayer_task
      && player.combat_option.style_type.is_melee
      && head_salve_free player then
    scalar_mul_fraction value ⟨7, 6⟩
  else value

/-- `callbacks::black_mask_imbued`: on a slayer task, ×7/6 for melee
styles (no salve variant in the head slot) or ×23/20 for ranged/magic
styles (no imbued salve variant in the head slot). -/
def black_mask_imbued (value : Scalar) (player : Player) (_enemy : Enemy) : Scalar :=
  if player.extra.on_slayer_task then
    match player.combat_option.style_type with
    | .Stab | .Slash | .Crush =>
        if head_salve_free player then scalar_mul_fraction value ⟨7, 6⟩ else value
    | .Ranged | .Magic =>
        if head_salve_imbued_free player then scalar_mul_fraction value ⟨23, 20⟩ else value
    | _ => value
  else value

/-- `callbacks::wilderness_weapon_melee`. -/
def wilderness_weapon_melee (value : Scalar) (player : Player) (_enemy : Enemy) : Scalar :=
  if player.extra.in_wilderness && player.combat_option.style_type.is_melee then
    scalar_mul_fraction value ⟨3, 2⟩
  else value

/-- `callbacks::wilderness_weapon_ranged`. -/
def wilderness_weapon_ranged (value : Scalar) (player : Player) (_enemy : Enemy) : Scalar :=
  if player.extra.in_wilderness && player.combat_option.style_type.is_ranged then
    scalar_mul_fraction value ⟨3, 2⟩
  else value

/-- `callbacks::wilderness_weapon_magic`. -/
def wilderness_weapon_magic (value : Scalar) (player : Player) (_enemy : Enemy) : Scalar :=
  if player.extra.in_wilderness && player.combat_option.style_type.is_magic then
    scalar_mul_fraction value ⟨3, 2⟩
  else value

/-- `callbacks::arclight`. -/
def arclight (value : Scalar) (player : Player) (enemy : Enemy) : Scalar :=
  if enemy.has_attribute .Demon && player.combat_option.style_type.is_melee then
    scalar_mul_fraction value ⟨17, 10⟩
  else value

/-- `callbacks::blisterwood_accuracy`. -/
def blisterwood_accuracy (value : Scalar) (player : Player) (enemy : Enemy) : Scalar :=
  if enemy.has_attribute .Vampyre && player.combat_option.style_type.is_melee then
    scalar_mul_fraction value ⟨21, 20⟩
  else value

/-- `callbacks::blisterwood_flail_max_hit`. -/
def blisterwood_flail_max_hit (value : Scalar) (player : Player) (enemy : Enemy) : Scalar :=
  if enemy.has_attribute .Vampyre && player.combat_option.style_type.is_melee then
    scalar_mul_fraction value ⟨5, 4⟩
  else value

/-- `callbacks::blisterwood_sickle_max_hit`. -/
def blisterwood_sickle_max_hit (value : Scalar) (player : Player) (enemy : Enemy) : Scalar :=
  if enemy.has_attribute .Vampyre && player.combat_option.style_type.is_melee then
    scalar_mul_fraction value ⟨23, 20⟩
  else value

/-- `callbacks::colossal_blade`: max hit += 2 × min(enemy.size, 5), melee
only. -/
def colossal_blade (value : Scalar) (player : Player) (enemy : Enemy) : Scalar :=
  if player.combat_option.style_type.is_melee then
    value + 2 * min enemy.size 5
  else value

/-- `callbacks::harmonised_nightmare_staff_attack_speed`: forces the
attack speed to 4 ticks while a spell is selected. -/
def harmonised_nightmare_staff_attack_speed (attack_speed : Ticks) (player : Player)
    (_enemy : Enemy) : Ticks :=
  if player.spell.isSome then 4 else attack_speed

/-- `Attribute::accuracy_roll_callback`: the per-attribute accuracy
callback dispatch table; unmapped attributes use the identity. -/
def Attribute.accuracy_roll_callback (a : Attribute) (value : Scalar) (player : Player)
    (enemy : Enemy) : Scalar :=
  match a with
  | .DragonHunterCrossbow => dragon_hunter_crossbow_accuracy value player enemy
  | .SalveAmulet => salve_amulet value player enemy
  | .SalveAmuletImbued => salve_amulet_imbued value player enemy
  | .SalveAmuletEnchanted => salve_amulet_enchanted value player enemy
  | .SalveAmuletEnchantedImbued => salve_amulet_enchanted_imbued value player enemy
  | .BlackMask => black_mask value player enemy
  | .BlackMaskImbued => black_mask_imbued value player enemy
  | .WildernessWeaponMelee => wilderness_weapon_melee value player enemy
  | .WildernessWeaponRanged => wilderness_weapon_ranged value player enemy
  | .WildernessWeaponMagic => wilderness_weapon_magic value player enemy
  | .Arclight => arclight value player enemy
  | .BlisterwoodFlail | .BlisterwoodSickle => blisterwood_accuracy value player enemy
  | _ => identity_callback value player enemy

/-- `Attribute::max_hit_callback`: the per-attribute max-hit callback
dispatch table; unmapped attributes use the identity. -/
def Attribute.max_hit_callback (a : Attribute) (value : Scalar) (player : Player)
    (enemy : Enemy) : Scalar :=
  match a with
  | .DragonHunterCrossbow => dragon_hunter_crossbow_max_hit value player enemy
  | .SalveAmulet => salve_amulet value player enemy
  | .SalveAmuletImbued => salve_amulet_imbued value player enemy
  | .SalveAmuletEnchanted => salve_amulet_enchanted value player enemy
  | .SalveAmuletEnchantedImbued => salve_amulet_enchanted_imbued value player enemy
  | .BlackMask => black_mask value player enemy
  | .BlackMaskImbued => black_mask_imbued value player enemy
  | .ColossalBlade => colossal_blade value player enemy
  | .WildernessWeaponMelee => wilderness_weapon_melee value player enemy
  | .WildernessWeaponRanged => wilderness_weapon_ranged value player enemy
  | .WildernessWeaponMagic => wilderness_weapon_magic value player enemy
  | .Arclight => arclight value player enemy
  | .BlisterwoodFlail => blisterwood_flail_max_hit value player enemy
  | .BlisterwoodSickle => blisterwood_sickle_max_hit value player enemy
  | _ => identity_callback value player enemy

/-- `Attribute::attack_speed_callback`: only the harmonised nightmare
staff has a non-identity attack-speed callback. -/
def Attribute.attack_speed_callback (a : Attribute) (value : Ticks) (player : Player)
    (enemy : Enemy) : Ticks :=
  match a with
  | .HarmonisedNightmareStaff => harmonised_nightmare_staff_attack_speed value player enemy
  | _ => value

/-- `impl Callbacks for Vec<Attribute>`, accuracy part: fold the
accuracy callbacks over an attribute list. -/
def attrs_accuracy_roll_callback (attrs : List Attribute) (value : Scalar) (player : Player)
    (enemy : Enemy) : Scalar :=
  attrs.foldl (fun v a => a.accuracy_roll_callback v player enemy) value

/-- `impl Callbacks for Vec<Attribute>`, max-hit part: fold the max-hit
callbacks over an attribute list. -/
def attrs_max_hit_callback (attrs : List Attribute) (value : Scalar) (player : Player)
    (enemy : Enemy) : Scalar :=
  attrs.foldl (fun v a => a.max_hit_callback v player enemy) value

/-! ## Equipped callback chains (src/unit.rs, impl Equipped) -/

/-- `Equipped::accuracy_roll_callback`: fold the accuracy callbacks over
the iterated slots (head … ring), then over the wielded weapon's
attributes. -/
def Equipped.accuracy_roll_callback (eq : Equipped) (value : Scalar) (player : Player)
    (enemy : Enemy) : Scalar :=
  let value := eq.iter.foldl
    (fun v equipment => attrs_accuracy_roll_callback equipment.attributes v player enemy) value
  attrs_accuracy_roll_callback eq.wielded.attributes value player enemy

/-- `Equipped::max_hit_callback`: fold the max-hit callbacks over the
iterated slots (head … ring), then over the wielded weapon's
attributes. -/
def Equipped.max_hit_callback (eq : Equipped) (value : Scalar) (player : Player)
    (enemy : Enemy) : Scalar :=
  let value := eq.iter.foldl
    (fun v equipment => attrs_max_hit_callback equipment.attributes v player enemy) value
  attrs_max_hit_callback eq.wielded.attributes value player enemy

/-- `Equipped::attack_speed_callback`: fold the attack-speed callbacks
over the wielded weapon's attributes only. -/
def Equipped.attack_speed_callback (eq : Equipped) (value : Ticks) (player : Player)
    (enemy : Enemy) : Ticks :=
  eq.wielded.attributes.foldl (fun v a => a.attack_speed_callback v player enemy) value

/-- `Equipped::powered_staff_max_hit` from src/unit.rs, with the local
`standard_formula(i, j) = magic / i - j` (truncated division). -/
def Equipped.powered_staff_max_hit (eq : Equipped) (player : Player) : Option Scalar :=
  let standard_formula (i j : Int) : Scalar := Int.tdiv player.levels.magic i - j
  eq.wielded.weapon_or_default.powered_staff_type.map (fun powered_staff =>
    match powered_staff with
    | .StarterStaff => 8
    | .TridentOfTheSeas => standard_formula 3 5
    | .ThammaronsSceptre => standard_formula 3 8
    | .AccursedSceptre => standard_formula 3 6
    | .TridentOfTheSwamp => standard_formula 3 2
    | .SanguinestiStaff => standard_formula 3 1
    | .Dawnbringer => standard_formula 6 1
    | .TumekensShadow => standard_formula 3 (-1)
    | .CrystalStaffBasic => 25
    | .CrystalStaffAttuned => 31
    | .CrystallStaffPerfected => 39
    | .SwampLizard => Int.tdiv (player.levels.magic * (56 + 64) + 320) 640
    | .OrangeSalamander => Int.tdiv (player.levels.magic * (59 + 64) + 320) 640
    | .RedSalamander => Int.tdiv (player.levels.magic * (77 + 64) + 320) 640
    | .BlackSalamander => Int.tdiv (player.levels.magic * (92 + 64) + 320) 640)

/-! ## Player computations (src/unit.rs, impl Player) -/

/-- `Player::change_combat_style`: selects the option at `index` from the
wielded weapon's catalog list (`Vec::remove(index)` returns that
element), or fails with "Invalid index" leaving the player unchanged.
The `&mut self -> Result` shape is embedded as a result/state pair. -/
def Player.change_combat_style (p : Player) (index : Nat) :
    Except String Unit × Player :=
  let combat_options := p.equipped.wielded.combat_boost
  if h : index < combat_options.length then
    (Except.ok (), { p with combat_option := combat_options.get ⟨index, h⟩ })
  else
    (Except.error ("Invalid index"), p)

/-- `Player::max_melee_accuracy_roll`.  The panicking `invisible_boost`
call and the `unreachable!` style arm are embedded as `none`. -/
def Player.max_melee_accuracy_roll (p : Player) (enemy : Enemy) : Option Scalar := do
  let boost ← p.combat_option.invisible_boost.toOption
  let effective_attack_level :=
    scalar_mul_percentage p.levels.attack p.prayer_stats.melee_accuracy + boost.attack + 8
  let style_bonus ← (match p.combat_option.style_type with
    | .Stab => some p.equipped.total_stats.attack.stab
    | .Slash => some p.equipped.total_stats.attack.slash
    | .Crush => some p.equipped.total_stats.attack.crush
    | _ => none : Option Scalar)
  let attack_roll := effective_attack_level * (style_bonus + 64)
  pure (p.equipped.accuracy_roll_callback attack_roll p enemy)

/-- `Player::max_melee_hit`. -/
def Player.max_melee_hit (p : Player) (enemy : Enemy) : Option Scalar := do
  let boost ← p.combat_option.invisible_boost.toOption
  let effective_strength_level :=
    scalar_mul_percentage p.levels.strength p.prayer_stats.melee_damage + boost.strength + 8
  let max_hit := Int.tdiv
    (effective_strength_level * (p.equipped.total_stats.damage.strength + 64) + 320) 640
  pure (p.equipped.max_hit_callback max_hit p enemy)

/-- `Player::max_ranged_accuracy_roll`. -/
def Player.max_ranged_accuracy_roll (p : Player) (enemy : Enemy) : Option Scalar := do
  let boost ← p.combat_option.invisible_boost.toOption
  let effective_ranged_level :=
    scalar_mul_percentage p.levels.ranged p.prayer_stats.ranged_accuracy + boost.ranged + 8
  let style_bonus ← (match p.combat_option.style_type with
    | .Ranged => some p.equipped.total_stats.attack.ranged
    | _ => none : Option Scalar)
  let attack_roll := effective_ranged_level * (style_bonus + 64)
  pure (p.equipped.accuracy_roll_callback attack_roll p enemy)

/-- `Player::max_ranged_hit`. -/
def Player.max_ranged_hit (p : Player) (enemy : Enemy) : Option Scalar := do
  let boost ← p.combat_option.invisible_boost.toOption
  let effective_ranged_level :=
    scalar_mul_percentage p.levels.ranged p.prayer_stats.ranged_damage + boost.ranged + 8
  let max_hit := Int.tdiv
    (effective_ranged_level * (p.equipped.total_stats.damage.ranged + 64) + 320) 640
  pure (p.equipped.max_hit_callback max_hit p enemy)

/-- `Player::max_magic_accuracy_roll`. -/
def Player.max_magic_accuracy_roll (p : Player) (enemy : Enemy) : Option Scalar := do
  let boost ← p.combat_option.invisible_boost.toOption
  let effective_magic_level :=
    scalar_mul_percentage p.levels.magic p.prayer_stats.magic_accuracy + boost.magic + 8
  let effective_magic_level :=
    if p.spell.isSome then effective_magic_level + 1 else effective_magic_level
  let magic_bonus := p.equipped.total_stats.attack.magic
  let attack_roll := effective_magic_level * (magic_bonus + 64)
  pure (p.equipped.accuracy_roll_callback attack_roll p enemy)

/-- `Player::max_magic_hit`: powered-staff table value, else the selected
spell's base max hit (the `unimplemented!()` fallthrough is `none`),
then multiplied by the equipped magic damage percentage. -/
def Player.max_magic_hit (p : Player) (_enemy : Enemy) : Option Scalar := do
  let max_hit ← (match p.equipped.powered_staff_max_hit p with
    | some max_hit => some max_hit
    | none => p.spell.map Spell.max_hit : Option Scalar)
  pure (scalar_mul_percentage max_hit p.equipped.total_stats.damage.magic)

/-- `Player::max_accuracy_roll`: style dispatch (a selected spell forces
magic). -/
def Player.max_accuracy_roll (p : Player) (enemy : Enemy) : Option Scalar :=
  if p.spell.isSome then p.max_magic_accuracy_roll enemy
  else
    match p.combat_option.style_type with
    | .Stab | .Slash | .Crush => p.max_melee_accuracy_roll enemy
    | .Ranged => p.max_ranged_accuracy_roll enemy
    | .Magic => p.max_magic_accuracy_roll enemy
    | .None => none

/-- `Player::max_hit`: style dispatch (a selected spell forces magic). -/
def Player.max_hit (p : Player) (enemy : Enemy) : Option Scalar :=
  if p.spell.isSome then p.max_magic_hit enemy
  else
    match p.combat_option.style_type with
    | .Stab | .Slash | .Crush => p.max_melee_hit enemy
    | .Ranged => p.max_ranged_hit enemy
    | .Magic => p.max_magic_hit enemy
    | .None => none

/-- The attack speed used inside `Player::dps`: with a spell selected, a
fixed base of 5 ticks passed through the wielded-weapon attack-speed
callback chain; otherwise the wielded weapon's attack speed plus the
style's invisible delta. -/
def Player.attack_speed_used (p : Player) (enemy : Enemy) : Option Ticks :=
  if p.spell.isSome then some (p.equipped.attack_speed_callback 5 p enemy)
  else p.equipped.wielded.attack_speed p.combat_option

/-- `Player::dps` from src/unit.rs.  The f64 arithmetic of the final
hit-rate/DPS blend is embedded exactly over `ℚ`; `0.5` is 1/2 and
`SECONDS_PER_TICK` is 3/5. -/
def Player.dps (p : Player) (enemy : Enemy) : Option ℚ := do
  let style_type := if p.spell.isSome then StyleType.Magic else p.combat_option.style_type
  let max_enemy_defence_roll ← enemy.max_defence_roll style_type
  let max_accuracy_roll ← p.max_accuracy_roll enemy
  let max_hit ← p.max_hit enemy
  let attack_speed ← p.attack_speed_used enemy
  let max_accuracy_roll : ℚ := max_accuracy_roll
  let max_enemy_defence_roll : ℚ := max_enemy_defence_roll
  let max_hit : ℚ := max_hit
  let attack_speed : ℚ := attack_speed
  let hit_rate :=
    if max_enemy_defence_roll > max_accuracy_roll then
      1 / 2 * max_accuracy_roll / (max_enemy_defence_roll + 1)
    else
      1 - 1 / 2 * (max_enemy_defence_roll + 2) / (max_accuracy_roll + 1)
  pure (hit_rate * max_hit / 2 / attack_speed / SECONDS_PER_TICK)

/-! ## Concrete fixtures used by witnesses and counterexamples -/

/-- A concrete enemy: defence level 100, crush defence bonus 50. -/
def enemy_dummy : Enemy :=
  { name := "Dummy", levels := { defence := 100 }, stats := { defence := { crush := 50 } } }

/-! ## Specification-side definitions for the refinement claims

These definitions follow the words of the specification (not the code) and
are compared against the code-derived definitions above. -/

/-- The invisible-boost catalog exactly as the specification lists it
(§4.2): melee Accurate → +3 attack, melee Aggressive → +3 strength, any
Defensive → +3 defence, any Controlled → +1/+1/+1, Ranged
Accurate/ShortFuse → +3 ranged, Ranged Rapid/MediumFuse → −1 tick, Ranged
Longrange → +3 defence and +2 range, any LongFuse → +1 range, Magic
Accurate → +3 magic, Magic Longrange → +1 magic/+3 defence/+2 range,
Magic Autocast/DefensiveAutocast and None/None → no boost; every other
pairing is unsupported (`none`). -/
def spec_invisible_boost_table (st : StyleType) (ws : WeaponStyle) :
    Option CombatOptionModifier :=
  match st, ws with
  | .Slash, .Accurate | .Crush, .Accurate | .Stab, .Accurate => some { attack := 3 }
  | .Slash, .Aggressive | .Crush, .Aggressive | .Stab, .Aggressive => some { strength := 3 }
  | _, .Defensive => some { defence := 3 }
  | _, .Controlled => some { attack := 1, strength := 1, defence := 1 }
  | .Ranged, .Accurate | .Ranged, .ShortFuse => some { ranged := 3 }
  | .Ranged, .Rapid | .Ranged, .MediumFuse => some { attack_speed := -1 }
  | .Ranged, .Longrange => some { defence := 3, attack_range := 2 }
  | _, .LongFuse => some { attack_range := 1 }
  | .Magic, .Accurate => some { magic := 3 }
  | .Magic, .Longrange => some { magic := 1, defence := 3, attack_range := 2 }
  | .Magic, .Autocast | .Magic, .DefensiveAutocast => some {}
  | .None, .None => some {}
  | _, _ => none

/-- Claim C5: for every CombatOption, `invisible_boost` yields exactly the
catalog boost for the listed (style_type, weapon_style) pairs — melee
Accurate +3 attack, melee Aggressive +3 strength, any Defensive +3
defence, any Controlled +1/+1/+1, Ranged Rapid or MediumFuse −1 tick, and
the rest of the catalog — and for every other pairing it fails with a
recoverable error value (`Except.error`) instead of panicking. -/
theorem c5_invisible_boost_catalog (c : CombatOption) :
    (match spec_invisible_boost_table c.style_type c.weapon_style with
      | some boost => c.invisible_boost = Except.ok boost
      | none => c.invisible_boost = Except.error ("Not interested")) := by
  obtain ⟨n, st, ws⟩ := c
  cases st <;> cases ws <;> rfl

/-- Claim C7: for every enemy and style type other than None,
`max_defence_roll` returns ((magic level for Magic, defence level
otherwise) + 9) × (matching defence stat bonus + 64). -/
theorem c7_max_defence_roll (e : Enemy) (st : StyleType) (h : st ≠ StyleType.None) :
    e.max_defence_roll st = some
      (((match st with | .Magic => e.levels.magic | _ => e.levels.defence) + 9) *
        ((match st with
          | .Stab => e.stats.defence.stab
          | .Slash => e.stats.defence.slash
          | .Crush => e.stats.defence.crush
          | .Ranged => e.stats.defence.ranged
          | _ => e.stats.defence.magic) + 64)) := by
  cases st <;> first | rfl | exact absurd rfl h

/-- Witness for C7 at a concrete enemy and the Crush style:
(100 + 9) × (50 + 64) = 12426. -/
theorem c7_max_defence_roll_witness :
    Enemy.max_defence_roll enemy_dummy StyleType.Crush = some 12426 := by
  rw [c7_max_defence_roll enemy_dummy StyleType.Crush (by decide)]
  decide

/-- Claim C9: every WeaponType yields a non-empty combat option list;
Bulwark and Gun yield exactly 2 options, every other variant at least 3. -/
theorem c9_combat_boost_lengths (wt : WeaponType) :
    1 ≤ wt.combat_boost.length ∧
    (match wt with
      | .Bulwark | .Gun => wt.combat_boost.length = 2
      | _ => 3 ≤ wt.combat_boost.length) := by
  cases wt <;> exact ⟨by decide, by decide⟩

/-- Claim C6: `change_combat_style(index)` fails with the invalid-index
error iff `index ≥ options.len()` for the wielded weapon's catalog list,
leaving the player unchanged on failure; on success it selects exactly
the option at `index`, leaving every other field unchanged (so subsequent
roll/hit/dps computations, which read `combat_option`, use the new
option). -/
theorem c6_change_combat_style (p : Player) (index : Nat) :
    (∀ h : index < p.equipped.wielded.combat_boost.length,
      p.change_combat_style index =
        (Except.ok (),
          { p with combat_option := p.equipped.wielded.combat_boost.get ⟨index, h⟩ })) ∧
    (p.equipped.wielded.combat_boost.length ≤ index →
      p.change_combat_style index = (Except.error ("Invalid index"), p)) := by
  constructor
  · intro h
    simp [Player.change_combat_style, h]
  · intro h
    simp [Player.change_combat_style, Nat.not_lt.mpr h]

/-- Witness for C6 on the default (unarmed) player: index 1 selects the
Kick option; index 5 is out of range for the 3-option unarmed list and
leaves the player unchanged. -/
theorem c6_change_combat_style_witness :
    Player.change_combat_style ({} : Player) 1 =
      (Except.ok (),
        { ({} : Player) with combat_option := mkCombatOption ("Kick") .Crush .Aggressive }) ∧
    Player.change_combat_style ({} : Player) 5 = (Except.error ("Invalid index"), ({} : Player)) :=
  ⟨(c6_change_combat_style ({} : Player) 1).1 (by decide),
   (c6_change_combat_style ({} : Player) 5).2 (by decide)⟩

/-- Claim C3: for every player whose selected combat option has a melee
style type (Stab, Slash or Crush) and whose style/weapon-style pair has a
defined invisible boost, `max_melee_accuracy_roll` returns
((attack level × prayer melee accuracy percentage, truncating) +
invisible boost attack + 8) × (total equipped attack bonus on the
selected style's axis + 64), passed through the equipped attribute
accuracy-callback chain. -/
theorem c3_melee_accuracy_roll (p : Player) (e : Enemy) (boost : CombatOptionModifier)
    (hboost : p.combat_option.invisible_boost = Except.ok boost)
    (hmelee : p.combat_option.style_type.is_melee = true) :
    p.max_melee_accuracy_roll e = some
      (p.equipped.accuracy_roll_callback
        ((scalar_mul_percentage p.levels.attack p.prayer_stats.melee_accuracy
            + boost.attack + 8) *
          ((match p.combat_option.style_type with
            | .Stab => p.equipped.total_stats.attack.stab
            | .Slash => p.equipped.total_stats.attack.slash
            | _ => p.equipped.total_stats.attack.crush) + 64)) p e) := by
  cases hst : p.combat_option.style_type <;>
    simp_all [Player.max_melee_accuracy_roll, StyleType.is_melee, hboost, hst,
      Except.toOption, Option.bind]

/-- A whip-like one-handed weapon with +82 slash attack. -/
def weapon_whip : Weapon :=
  { name := "Whip", stats := { attack := { slash := 82 } },
    weapon_stats := { weapon_type := .Whip, attack_speed := 4 } }

/-- The Piety-like prayer used in witnesses: +20% melee accuracy, +23%
melee damage. -/
def prayer_piety : Prayer :=
  { name := "Piety", stats := { defence := 25, melee_accuracy := 20, melee_damage := 23 } }

/-- A concrete melee player: whip wielded, Piety active, Flick
(Slash, Accurate) selected. -/
def player_whip : Player :=
  { equipped := { wielded := .one_handed (some weapon_whip) none },
    active_prayers := [prayer_piety],
    combat_option := mkCombatOption ("Flick") .Slash .Accurate }

/-- Witness for C3: the whip player's melee accuracy roll is
((99 × 120 / 100) + 3 + 8) × (82 + 64) = 129 × 146 = 18834. -/
theorem c3_melee_accuracy_roll_witness :
    Player.max_melee_accuracy_roll player_whip enemy_dummy = some 18834 := by
  rw [c3_melee_accuracy_roll player_whip enemy_dummy { attack := 3 } (by rfl) (by rfl)]
  decide

/-- Claim C4: for every player and enemy, `max_magic_hit` takes the
powered-staff table value when the wielded weapon has a powered-staff
kind (StarterStaff = 8, TridentOfTheSeas = magic/3 − 5, ThammaronsSceptre
= magic/3 − 8, AccursedSceptre = magic/3 − 6, TridentOfTheSwamp =
magic/3 − 2, SanguinestiStaff = magic/3 − 1, Dawnbringer = magic/6 − 1,
TumekensShadow = magic/3 + 1, crystal staves 25/31/39, salamanders
(magic × (K + 64) + 320)/640 for K = 56, 59, 77, 92), otherwise the
selected spell's fixed base max hit, and multiplies the base by
(100 + total equipped magic damage percentage)/100 with truncation. -/
theorem c4_magic_max_hit (p : Player) (e : Enemy) :
    (∀ staff, p.equipped.wielded.weapon_or_default.powered_staff_type = some staff →
      p.max_magic_hit e = some (scalar_mul_percentage
        (match staff with
          | .StarterStaff => 8
          | .TridentOfTheSeas => Int.tdiv p.levels.magic 3 - 5
          | .ThammaronsSceptre => Int.tdiv p.levels.magic 3 - 8
          | .AccursedSceptre => Int.tdiv p.levels.magic 3 - 6
          | .TridentOfTheSwamp => Int.tdiv p.levels.magic 3 - 2
          | .SanguinestiStaff => Int.tdiv p.levels.magic 3 - 1
          | .Dawnbringer => Int.tdiv p.levels.magic 6 - 1
          | .TumekensShadow => Int.tdiv p.levels.magic 3 + 1
          | .CrystalStaffBasic => 25
          | .CrystalStaffAttuned => 31
          | .CrystallStaffPerfected => 39
          | .SwampLizard => Int.tdiv (p.levels.magic * (56 + 64) + 320) 640
          | .OrangeSalamander => Int.tdiv (p.levels.magic * (59 + 64) + 320) 640
          | .RedSalamander => Int.tdiv (p.levels.magic * (77 + 64) + 320) 640
          | .BlackSalamander => Int.tdiv (p.levels.magic * (92 + 64) + 320) 640)
        p.equipped.total_stats.damage.magic)) ∧
    (p.equipped.wielded.weapon_or_default.powered_staff_type = none →
      ∀ sp, p.spell = some sp →
        p.max_magic_hit e =
          some (scalar_mul_percentage sp.max_hit p.equipped.total_stats.damage.magic)) := by
  constructor
  · intro staff hstaff
    cases staff <;>
      simp [Player.max_magic_hit, Equipped.powered_staff_max_hit, hstaff, Option.bind,
        sub_neg_eq_add]
  · intro hnone sp hsp
    simp [Player.max_magic_hit, Equipped.powered_staff_max_hit, hnone, hsp, Option.bind]

/-- A trident of the swamp with +15% magic damage. -/
def weapon_trident : Weapon :=
  { name := "Trident of the swamp", stats := { damage := { magic := 15 } },
    weapon_stats := { weapon_type := .PoweredStaff, attack_speed := 4 },
    powered_staff_type := some .TridentOfTheSwamp }

/-- A powered-staff player wielding the trident of the swamp. -/
def player_trident : Player :=
  { equipped := { wielded := .two_handed (some weapon_trident) },
    combat_option := mkCombatOption ("Accurate") .Magic .Accurate }

/-- A spell-casting player with no weapon equipped. -/
def spell_wind_bolt : Spell := { name := "Wind Bolt", max_hit := 9 }

/-- The default player with the Wind Bolt spell selected. -/
def player_wind_bolt : Player := { ({} : Player) with spell := some spell_wind_bolt }

/-- Witness for C4: trident player (magic 99, +15% magic damage) hits
(99/3 − 2) × 115 / 100 = 31 × 115 / 100 = 35; the unarmed Wind Bolt
caster hits the spell's base 9 (no magic damage bonus). -/
theorem c4_magic_max_hit_witness :
    Player.max_magic_hit player_trident enemy_dummy = some 35 ∧
    Player.max_magic_hit player_wind_bolt enemy_dummy = some 9 :=
  ⟨by rw [(c4_magic_max_hit player_trident enemy_dummy).1 .TridentOfTheSwamp (by rfl)]; decide,
   by rw [(c4_magic_max_hit player_wind_bolt enemy_dummy).2 (by rfl) spell_wind_bolt (by rfl)]
      decide⟩

/-- Helper: once the attack speed has been forced to 4, every further
attack-speed callback keeps it at 4 (with a spell selected). -/
theorem attack_speed_callback_fixes_four (p : Player) (e : Enemy)
    (hs : p.spell.isSome = true) (a : Attribute) : a.attack_speed_callback 4 p e = 4 := by
  cases a <;>
    simp [Attribute.attack_speed_callback, harmonised_nightmare_staff_attack_speed, hs]

/-- Helper: folding the attack-speed callbacks from 4 stays at 4 (with a
spell selected). -/
theorem attack_speed_fold_from_four (p : Player) (e : Enemy)
    (hs : p.spell.isSome = true) (l : List Attribute) :
    l.foldl (fun v a => a.attack_speed_callback v p e) 4 = 4 := by
  induction l with
  | nil => rfl
  | cons a t ih => rw [List.foldl_cons, attack_speed_callback_fixes_four p e hs a]; exact ih

/-- Helper: if the harmonised nightmare staff attribute occurs in the
folded list and a spell is selected, the attack-speed fold yields 4
whatever the starting value. -/
theorem attack_speed_fold_harmonised (p : Player) (e : Enemy)
    (hs : p.spell.isSome = true) (l : List Attribute) :
    ∀ (v : Ticks), Attribute.HarmonisedNightmareStaff ∈ l →
      l.foldl (fun v a => a.attack_speed_callback v p e) v = 4 := by
  induction l with
  | nil => intro v hmem; cases hmem
  | cons a t ih =>
    intro v hmem
    rw [List.foldl_cons]
    by_cases ha : a = Attribute.HarmonisedNightmareStaff
    · subst ha
      have h4 : Attribute.HarmonisedNightmareStaff.attack_speed_callback v p e = 4 := by
        simp [Attribute.attack_speed_callback, harmonised_nightmare_staff_attack_speed, hs]
      rw [h4]
      exact attack_speed_fold_from_four p e hs t
    · rcases List.mem_cons.mp hmem with h | h
      · exact absurd h.symm ha
      · have hcb : a.attack_speed_callback v p e = v := by
          cases a <;> first | rfl | exact absurd rfl ha
        rw [hcb]
        exact ih v h

/-- Claim C10: with a spell selected, `Player::dps` computes the attack
speed as a fixed base of 5 ticks passed through the wielded-weapon
attribute attack-speed callback chain (so a harmonised nightmare staff
forces it to 4), ignoring the wielded weapon's own attack_speed stat and
the combat style's attack-speed delta; without a spell it uses the
weapon's attack speed plus the style's invisible delta. -/
theorem c10_attack_speed (p : Player) (e : Enemy) :
    (p.spell.isSome = true →
      p.attack_speed_used e =
          some (p.equipped.wielded.attributes.foldl
            (fun v a => a.attack_speed_callback v p e) 5) ∧
        (Attribute.HarmonisedNightmareStaff ∈ p.equipped.wielded.attributes →
          p.attack_speed_used e = some 4)) ∧
    (p.spell = none → ∀ boost, p.combat_option.invisible_boost = Except.ok boost →
      p.attack_speed_used e =
        some (p.equipped.wielded.weapon_stats.attack_speed + boost.attack_speed)) := by
  constructor
  · intro hs
    constructor
    · simp [Player.attack_speed_used, hs, Equipped.attack_speed_callback]
    · intro hmem
      simp [Player.attack_speed_used, hs, Equipped.attack_speed_callback,
        attack_speed_fold_harmonised p e hs _ 5 hmem]
  · intro hnone boost hboost
    simp [Player.attack_speed_used, hnone, Wielded.attack_speed, hboost, Except.toOption]

/-- A harmonised nightmare staff: its own attack speed stat is 7 ticks,
but the attribute callback forces 4 while casting. -/
def staff_harmonised : Weapon :=
  { name := "Harmonised nightmare staff", attributes := [.HarmonisedNightmareStaff],
    weapon_stats := { weapon_type := .Staff, attack_speed := 7 } }

/-- A player casting Wind Bolt with the harmonised nightmare staff. -/
def player_harmonised : Player :=
  { equipped := { wielded := .two_handed (some staff_harmonised) },
    spell := some spell_wind_bolt,
    combat_option := mkCombatOption ("Spell") .Magic .Autocast }

/-- Witness for C10: the harmonised caster attacks at 4 ticks (not the
weapon's 7), and the spell-less default player at 4 + 0 ticks. -/
theorem c10_attack_speed_witness :
    Player.attack_speed_used player_harmonised enemy_dummy = some 4 ∧
    Player.attack_speed_used ({} : Player) enemy_dummy = some (4 + 0) :=
  ⟨((c10_attack_speed player_harmonised enemy_dummy).1 (by rfl)).2 (by decide),
   (c10_attack_speed ({} : Player) enemy_dummy).2 rfl { attack := 3 } (by rfl)⟩

/-! ## Claim C1: the hit-rate formula inside Player::dps -/

/-- The default player (unarmed, no prayers, Punch selected), as built by
`impl Default for Player`. -/
def player_unarmed : Player := {}

/-- The hit-rate formula exactly as the specification claims it:
0.5 × accuracy/defence when defence exceeds accuracy, else
1 − 0.5 × defence/accuracy — without the +1/+2 offsets. -/
def spec_hit_rate (accuracy defence : ℚ) : ℚ :=
  if defence > accuracy then 1 / 2 * accuracy / defence
  else 1 - 1 / 2 * defence / accuracy

/-- The DPS value the specification claims, built from the engine's own
rolls, max hit and attack speed but with `spec_hit_rate` in place of the
code's offset hit rate. -/
def spec_dps (p : Player) (e : Enemy) : Option ℚ := do
  let style_type := if p.spell.isSome then StyleType.Magic else p.combat_option.style_type
  let d ← e.max_defence_roll style_type
  let a ← p.max_accuracy_roll e
  let m ← p.max_hit e
  let s ← p.attack_speed_used e
  pure (spec_hit_rate a d * m / 2 / s / (3 / 5))

/-- Counterexample to C1 as stated: for the default unarmed player
against a defence-100 enemy (accuracy roll 7040, defence roll 12426,
max hit 11, speed 4 ticks) the engine's dps — whose hit rate is
0.5 × 7040 / (12426 + 1) — differs from the claimed
0.5 × 7040 / 12426 variant. -/
theorem c1_hit_rate_counterexample :
    Player.dps player_unarmed enemy_dummy ≠ spec_dps player_unarmed enemy_dummy := by
  have hd : Enemy.max_defence_roll enemy_dummy StyleType.Crush = some 12426 := by decide
  have ha : Player.max_accuracy_roll player_unarmed enemy_dummy = some 7040 := by decide
  have hm : Player.max_hit player_unarmed enemy_dummy = some 11 := by decide
  have hs : Player.attack_speed_used player_unarmed enemy_dummy = some 4 := by decide
  have hspell : player_unarmed.spell = none := rfl
  have hopt : player_unarmed.combat_option.style_type = StyleType.Crush := rfl
  simp only [Player.dps, spec_dps, hspell, hopt, Option.isSome_none, Bool.false_eq_true,
    if_false, hd, ha, hm, hs, Option.bind_some, Option.some_bind, spec_hit_rate,
    SECONDS_PER_TICK, Option.pure_def, ne_eq, Option.some.injEq]
  norm_num

/-- Claim C1 amended: the hit rate computed inside `Player::dps` is
0.5 × accuracy / (defence + 1) when the enemy's maximum defence roll
exceeds the player's maximum accuracy roll, and
1 − 0.5 × (defence + 2) / (accuracy + 1) otherwise (the "+1"/"+2"
stabilizing offsets are present in the code), and dps equals
((hit_rate × max_hit / 2) / attack_speed_ticks) / 0.6. -/
theorem c1_dps_formula (p : Player) (e : Enemy) (d a m s : Scalar)
    (hd : e.max_defence_roll
      (if p.spell.isSome then StyleType.Magic else p.combat_option.style_type) = some d)
    (ha : p.max_accuracy_roll e = some a)
    (hm : p.max_hit e = some m)
    (hs : p.attack_speed_used e = some s) :
    p.dps e = some
      ((if (d : ℚ) > (a : ℚ) then 1 / 2 * (a : ℚ) / ((d : ℚ) + 1)
        else 1 - 1 / 2 * ((d : ℚ) + 2) / ((a : ℚ) + 1)) * (m : ℚ) / 2 / (s : ℚ) / (3 / 5)) := by
  simp only [Player.dps, hd, ha, hm, hs]
  rfl

/-- Witness for C1 at the concrete rolls of the default unarmed player
against the defence-100 enemy. -/
theorem c1_dps_formula_witness :
    Player.dps player_unarmed enemy_dummy = some
      ((if ((12426 : Int) : ℚ) > ((7040 : Int) : ℚ) then
          1 / 2 * ((7040 : Int) : ℚ) / (((12426 : Int) : ℚ) + 1)
        else 1 - 1 / 2 * (((12426 : Int) : ℚ) + 2) / (((7040 : Int) : ℚ) + 1)) *
        ((11 : Int) : ℚ) / 2 / ((4 : Int) : ℚ) / (3 / 5)) :=
  c1_dps_formula player_unarmed enemy_dummy 12426 7040 11 4 (by decide) (by decide)
    (by decide) (by decide)

/-! ## Claim C2: the callback-chain fold order -/

/-- The accuracy callback chain in the slot order the specification
claims: head → cape → neck → ammunition → wielded weapon → body → legs →
hands → feet → ring. -/
def spec_order_accuracy_roll_callback (eq : Equipped) (value : Scalar) (player : Player)
    (enemy : Enemy) : Scalar :=
  let v := attrs_accuracy_roll_callback (eq.head.getD Equipment.empty).attributes value player enemy
  let v := attrs_accuracy_roll_callback (eq.cape.getD Equipment.empty).attributes v player enemy
  let v := attrs_accuracy_roll_callback (eq.neck.getD Equipment.empty).attributes v player enemy
  let v := attrs_accuracy_roll_callback (eq.ammunition.getD Equipment.empty).attributes v player enemy
  let v := attrs_accuracy_roll_callback eq.wielded.attributes v player enemy
  let v := attrs_accuracy_roll_callback (eq.body.getD Equipment.empty).attributes v player enemy
  let v := attrs_accuracy_roll_callback (eq.legs.getD Equipment.empty).attributes v player enemy
  let v := attrs_accuracy_roll_callback (eq.hands.getD Equipment.empty).attributes v player enemy
  let v := attrs_accuracy_roll_callback (eq.feet.getD Equipment.empty).attributes v player enemy
  attrs_accuracy_roll_callback (eq.ring.getD Equipment.empty).attributes v player enemy

/-- A two-handed melee weapon carrying the wilderness melee attribute
(×3/2 in the wilderness). -/
def weapon_wilderness : Weapon :=
  { name := "Wilderness weapon", attributes := [.WildernessWeaponMelee],
    weapon_stats := { weapon_type := .Blunt, attack_speed := 5 } }

/-- A body-slot item carrying the black mask attribute (×7/6 on task). -/
def body_black_mask : Equipment := { name := "Black mask body", attributes := [.BlackMask] }

/-- Loadout distinguishing the fold orders: wilderness weapon wielded,
black mask attribute on the body slot. -/
def equipped_c2 : Equipped :=
  { wielded := .two_handed (some weapon_wilderness), body := some body_black_mask }

/-- Melee player (on a slayer task, in the wilderness, both by default)
with the `equipped_c2` loadout. -/
def player_c2 : Player :=
  { equipped := equipped_c2, combat_option := mkCombatOption ("Pound") .Crush .Accurate }

/-- Counterexample to C2 as stated: starting from the value 5, the code's
chain (body's black mask first: 5×7/6 = 5, then wielded ×3/2 = 7)
disagrees with the claimed order (wielded ×3/2 = 7 before body: 7×7/6 =
8), because the code folds the wielded-weapon attributes last, after
ring — not between ammunition and body. -/
theorem c2_fold_order_counterexample :
    Equipped.accuracy_roll_callback equipped_c2 5 player_c2 enemy_dummy ≠
      spec_order_accuracy_roll_callback equipped_c2 5 player_c2 enemy_dummy := by
  decide

/-- Claim C2 amended: for every loadout, starting value, player and
enemy, the accuracy-roll and max-hit callback chains fold the per-slot
attribute callbacks in the order head → cape → neck → ammunition → body
→ legs → hands → feet → ring and fold the wielded-weapon attribute set
last; the attack-speed callback folds only the wielded-weapon attribute
set. -/
theorem c2_callback_fold_order (eq : Equipped) (v : Scalar) (t : Ticks) (p : Player)
    (e : Enemy) :
    Equipped.accuracy_roll_callback eq v p e =
      attrs_accuracy_roll_callback eq.wielded.attributes
        (attrs_accuracy_roll_callback (eq.ring.getD Equipment.empty).attributes
          (attrs_accuracy_roll_callback (eq.feet.getD Equipment.empty).attributes
            (attrs_accuracy_roll_callback (eq.hands.getD Equipment.empty).attributes
              (attrs_accuracy_roll_callback (eq.legs.getD Equipment.empty).attributes
                (attrs_accuracy_roll_callback (eq.body.getD Equipment.empty).attributes
                  (attrs_accuracy_roll_callback (eq.ammunition.getD Equipment.empty).attributes
                    (attrs_accuracy_roll_callback (eq.neck.getD Equipment.empty).attributes
                      (attrs_accuracy_roll_callback (eq.cape.getD Equipment.empty).attributes
                        (attrs_accuracy_roll_callback (eq.head.getD Equipment.empty).attributes
                          v p e)
                        p e) p e) p e) p e) p e) p e) p e) p e) p e ∧
    Equipped.max_hit_callback eq v p e =
      attrs_max_hit_callback eq.wielded.attributes
        (attrs_max_hit_callback (eq.ring.getD Equipment.empty).attributes
          (attrs_max_hit_callback (eq.feet.getD Equipment.empty).attributes
            (attrs_max_hit_callback (eq.hands.getD Equipment.empty).attributes
              (attrs_max_hit_callback (eq.legs.getD Equipment.empty).attributes
                (attrs_max_hit_callback (eq.body.getD Equipment.empty).attributes
                  (attrs_max_hit_callback (eq.ammunition.getD Equipment.empty).attributes
                    (attrs_max_hit_callback (eq.neck.getD Equipment.empty).attributes
                      (attrs_max_hit_callback (eq.cape.getD Equipment.empty).attributes
                        (attrs_max_hit_callback (eq.head.getD Equipment.empty).attributes
                          v p e)
                        p e) p e) p e) p e) p e) p e) p e) p e) p e ∧
    Equipped.attack_speed_callback eq t p e =
      eq.wielded.attributes.foldl (fun v a => a.attack_speed_callback v p e) t :=
  ⟨rfl, rfl, rfl⟩

/-! ## Claim C8: the black mask callbacks and the salve check -/

/-- Whether any equipped slot (the nine iterated armour slots or the
wielded weapon) carries a salve amulet variant — the "a Salve variant is
equipped" reading used by the claim. -/
def salve_variant_equipped (p : Player) : Bool :=
  (p.equipped.iter.any (fun equipment => equipment.attributes.any (fun a =>
      a == Attribute.SalveAmulet || a == Attribute.SalveAmuletEnchanted
        || a == Attribute.SalveAmuletImbued || a == Attribute.SalveAmuletEnchantedImbued)))
    || p.equipped.wielded.attributes.any (fun a =>
      a == Attribute.SalveAmulet || a == Attribute.SalveAmuletEnchanted
        || a == Attribute.SalveAmuletImbued || a == Attribute.SalveAmuletEnchantedImbued)

/-- A salve amulet, equipped in its natural slot: the neck. -/
def neck_salve : Equipment := { name := "Salve amulet", attributes := [.SalveAmulet] }

/-- A melee player on a slayer task wearing a salve amulet on the neck
(and nothing on the head). -/
def player_c8 : Player :=
  { equipped := { neck := some neck_salve },
    combat_option := mkCombatOption ("Punch") .Crush .Accurate }

/-- Counterexample to C8 as stated: `player_c8` is on a slayer task with
a melee style and has a salve amulet equipped (neck slot), yet
`black_mask` still multiplies 6 into 6×7/6 = 7, because the code checks
for salve variants only among the HEAD slot's attributes. -/
theorem c8_black_mask_counterexample :
    ¬ ((black_mask 6 player_c8 enemy_dummy = scalar_mul_fraction 6 ⟨7, 6⟩) ↔
        salve_variant_equipped player_c8 = false) := by
  decide

/-- Claim C8 amended: the BlackMask accuracy and max-hit callbacks both
dispatch to `black_mask`, which, on a slayer task with a melee style,
multiplies by 7/6 exactly when no salve variant is present among the
HEAD slot's attributes (not "equipped" anywhere); `black_mask_imbued`
behaves the same for melee and additionally multiplies by 23/20 for
ranged or magic styles unless an imbued salve variant is in the head
slot's attributes; with no slayer task both callbacks are the
identity. -/
theorem c8_black_mask_head_slot (v : Scalar) (p : Player) (e : Enemy) :
    (Attribute.BlackMask.accuracy_roll_callback v p e = black_mask v p e) ∧
    (Attribute.BlackMask.max_hit_callback v p e = black_mask v p e) ∧
    (Attribute.BlackMaskImbued.accuracy_roll_callback v p e = black_mask_imbued v p e) ∧
    (Attribute.BlackMaskImbued.max_hit_callback v p e = black_mask_imbued v p e) ∧
    (p.extra.on_slayer_task = true → p.combat_option.style_type.is_melee = true →
      head_salve_free p = true →
        black_mask v p e = scalar_mul_fraction v ⟨7, 6⟩ ∧
        black_mask_imbued v p e = scalar_mul_fraction v ⟨7, 6⟩) ∧
    (head_salve_free p = false → black_mask v p e = v) ∧
    (p.combat_option.style_type.is_melee = false → black_mask v p e = v) ∧
    (p.extra.on_slayer_task = true →
      (p.combat_option.style_type.is_ranged = true ∨ p.combat_option.style_type.is_magic = true) →
        (head_salve_imbued_free p = true →
          black_mask_imbued v p e = scalar_mul_fraction v ⟨23, 20⟩) ∧
        (head_salve_imbued_free p = false → black_mask_imbued v p e = v)) ∧
    (p.extra.on_slayer_task = false →
      black_mask v p e = v ∧ black_mask_imbued v p e = v) := by
  refine ⟨rfl, rfl, rfl, rfl, ?_, ?_, ?_, ?_, ?_⟩
  · intro htask hmelee hfree
    constructor
    · simp [black_mask, htask, hmelee, hfree]
    · cases hst : p.combat_option.style_type <;>
        simp_all [black_mask_imbued, StyleType.is_melee, htask, hfree]
  · intro hfree
    simp [black_mask, hfree]
  · intro hmelee
    simp [black_mask, hmelee]
  · intro htask hstyle
    constructor
    · intro hfree
      rcases hstyle with h | h <;> cases hst : p.combat_option.style_type <;>
        simp_all [black_mask_imbued, StyleType.is_ranged, StyleType.is_magic, htask, hfree]
    · intro hfree
      rcases hstyle with h | h <;> cases hst : p.combat_option.style_type <;>
        simp_all [black_mask_imbued, StyleType.is_ranged, StyleType.is_magic, htask, hfree]
  · intro htask
    constructor
    · simp [black_mask, htask]
    · simp [black_mask_imbued, htask]

/-- A black-mask head item. -/
def head_black_mask : Equipment := { name := "Black mask", attributes := [.BlackMask] }

/-- A slayer-task melee player wearing a black mask with no salve
variant anywhere. -/
def player_black_mask : Player :=
  { equipped := { head := some head_black_mask },
    combat_option := mkCombatOption ("Punch") .Crush .Accurate }

/-- An imbued-black-mask ranged player on a slayer task. -/
def player_black_mask_ranged : Player :=
  { equipped := { head := some { name := "Black mask (i)", attributes := [.BlackMaskImbued] } },
    combat_option := mkCombatOption ("Rapid") .Ranged .Rapid }

/-- Witness for C8 (amended): the salve-free melee player on task gets
6 → 7 from `black_mask`; the imbued ranged player on task gets
20 → 23. -/
theorem c8_black_mask_head_slot_witness :
    black_mask 6 player_black_mask enemy_dummy = scalar_mul_fraction 6 ⟨7, 6⟩ ∧
    black_mask_imbued 20 player_black_mask_ranged enemy_dummy = scalar_mul_fraction 20 ⟨23, 20⟩ :=
  ⟨((c8_black_mask_head_slot 6 player_black_mask enemy_dummy).2.2.2.2.1 (by rfl) (by rfl)
      (by decide)).1,
   ((c8_black_mask_head_slot 20 player_black_mask_ranged enemy_dummy).2.2.2.2.2.2.2.1 (by rfl)
      (Or.inl (by rfl))).1 (by decide)⟩

end OsrsDpsCalc
